import Mathlib

/-!
# Verification of the Glacier Retrieve restore-orchestration engine

Shallow embedding of the restore-orchestration engine of the
`glacier-retrieve` tool (`AWSGlacierTool`): the object enumerator
(`getBucketObjects`), the tier classifier (`filterGlacierObjects`),
the restore planner (`dryRunRestore`), the restore submitter
(`restoreObjects`) and the status aggregator (`checkRestoreStatus`).

The remote provider is modelled by oracles: a list of page-fetch
results for the paginated listing, a per-key head-metadata oracle for
the aggregator, and a per-key success oracle for restore submission.
Console progress/warning output that the spec treats as observable
(per-object outcomes, the success/failure counts, progress ticks) is
reified into the returned structures.
-/

namespace GlacierRetrieve

/-- An enumerated object, as normalized by `getBucketObjects`
(interface `S3Object` in the source). -/
structure S3Object where
  key : String
  size : Nat
  storageClass : String
  lastModified : String
deriving DecidableEq

/-- Result of the planner (interface `RestoreOperation` in the source).
The human-readable `totalSizeFormatted` field is presentation-layer
formatting and is not modelled. -/
structure RestoreOperation where
  objects : List S3Object
  totalSize : Nat
deriving DecidableEq

/-! ## Tier classifier (`filterGlacierObjects`) -/

/-- The three archival storage classes (`glacierStorageClasses` in the
source). -/
def glacierStorageClasses : List String := ["GLACIER", "DEEP_ARCHIVE", "GLACIER_IR"]

/-- The membership test `glacierStorageClasses.includes(obj.storageClass)`
used by `filterGlacierObjects`: the classifier predicate. -/
def isArchival (storageClass : String) : Bool :=
  glacierStorageClasses.contains storageClass

/-- `filterGlacierObjects`: keep exactly the objects whose storage class
is one of the three archival classes. -/
def filterGlacierObjects (objects : List S3Object) : List S3Object :=
  objects.filter (fun obj => isArchival obj.storageClass)

/-! ## Planner sort

`dryRunRestore` sorts with `glacierObjects.sort((a, b) => b.size - a.size)`.
`Array.prototype.sort` is a stable sort, so an element `a` precedes `b`
in the output iff `a.size > b.size`, or `a.size = b.size` and `a`
preceded `b` in the input.  This is exactly `List.insertionSort` with
the should-precede relation `b.size ≤ a.size`. -/

/-- `a` may be placed before `b`: `a`'s size is at least `b`'s. -/
def sizeDescKeepOrder (a b : S3Object) : Prop := b.size ≤ a.size

instance : DecidableRel sizeDescKeepOrder := fun a b => Nat.decLe b.size a.size

instance : IsTotal S3Object sizeDescKeepOrder := ⟨fun a b => Nat.le_total b.size a.size⟩

instance : IsTrans S3Object sizeDescKeepOrder :=
  ⟨fun _ _ _ hab hbc => Nat.le_trans hbc hab⟩

/-- The stable descending-by-size sort performed by the planner. -/
def sortBySizeDesc (l : List S3Object) : List S3Object :=
  l.insertionSort sizeDescKeepOrder

/-! ## Planner (`dryRunRestore`) -/

/-- Core of `dryRunRestore`, applied to the enumerated snapshot: early
return on an empty bucket, otherwise filter the archival subset, total
its sizes, and sort it descending by size. -/
def buildRestoreOperation (allObjects : List S3Object) : RestoreOperation :=
  if allObjects.isEmpty then
    { objects := [], totalSize := 0 }
  else
    let glacierObjects := filterGlacierObjects allObjects
    let totalSize := (glacierObjects.map S3Object.size).sum
    { objects := sortBySizeDesc glacierObjects, totalSize := totalSize }

/-! ## Object enumerator (`getBucketObjects`)

The provider's paginated listing is modelled as the finite sequence of
page-fetch results the provider would hand back for the successive
`ListObjectsV2` calls: each is either an error or a page of raw
entries plus an optional continuation token. -/

/-- A raw listing entry before normalization (fields of the SDK's
`ListObjectsV2` response `Contents`; every field may be missing). -/
structure RawObject where
  rawKey : Option String
  rawSize : Option Nat
  rawStorageClass : Option String
  rawLastModified : Option String
deriving DecidableEq

/-- One page of a paginated listing response. -/
structure ListPage where
  contents : List RawObject
  nextContinuationToken : Option String
deriving DecidableEq

/-- Normalization applied per entry in `getBucketObjects`:
`obj.Key || ''`, `obj.Size || 0`, `obj.StorageClass || 'STANDARD'`,
`obj.LastModified?.toISOString() || ''`.  A JS `||` default also
replaces an empty string (falsy), which matters for `StorageClass`. -/
def normalizeObject (obj : RawObject) : S3Object :=
  { key := obj.rawKey.getD "",
    size := obj.rawSize.getD 0,
    storageClass :=
      match obj.rawStorageClass with
      | none => "STANDARD"
      | some s => if s = "" then "STANDARD" else s,
    lastModified := obj.rawLastModified.getD "" }

/-- The error `getBucketObjects` throws when a page fetch fails. -/
def listingFailedMessage (bucketName cause : String) : String :=
  "Failed to list objects in bucket " ++ bucketName ++ ": " ++ cause

/-- `getBucketObjects`: walk the page-fetch results, accumulating
normalized entries while a continuation token is returned; a failed
page fetch aborts the whole enumeration with an error, discarding all
entries accumulated so far. -/
def getBucketObjects (bucketName : String) :
    List (Except String ListPage) → Except String (List S3Object)
  | [] => .ok []
  | .error cause :: _ => .error (listingFailedMessage bucketName cause)
  | .ok page :: rest =>
    match page.nextContinuationToken with
    | none => .ok (page.contents.map normalizeObject)
    | some _ =>
      match getBucketObjects bucketName rest with
      | .error e => .error e
      | .ok objs => .ok (page.contents.map normalizeObject ++ objs)

/-! ## Planner (`dryRunRestore`) over the paginated provider -/

/-- `dryRunRestore`: enumerate the bucket (propagating an enumeration
failure) and build the restore plan from the snapshot. -/
def dryRunRestore (bucketName : String)
    (responses : List (Except String ListPage)) : Except String RestoreOperation :=
  (getBucketObjects bucketName responses).map buildRestoreOperation

/-! ## Restore submitter (`restoreObjects`) -/

/-- The observable outcome of processing one object of the plan:
its key, whether `RestoreObjectCommand` succeeded (`send` oracle), and
whether the `Processed X/Y` progress line was printed right after it. -/
structure SubmitStep where
  key : String
  succeeded : Bool
  progressEmitted : Bool
deriving DecidableEq

/-- Counters and per-object trace accumulated by the submission loop. -/
structure SubmitAcc where
  steps : List SubmitStep
  successCount : Nat
  errorCount : Nat
deriving DecidableEq

/-- The `for (const obj of operation.objects)` loop of `restoreObjects`:
try the restore request for each object in plan order; on success
increment `successCount` and print progress when the new count is a
multiple of 10; on failure increment `errorCount` and warn, then keep
going.  `send key = true` models a successful `RestoreObjectCommand`. -/
def submitLoop (send : String → Bool) :
    List S3Object → Nat → Nat → SubmitAcc
  | [], s, e => { steps := [], successCount := s, errorCount := e }
  | obj :: rest, s, e =>
    if send obj.key then
      let acc := submitLoop send rest (s + 1) e
      { acc with steps :=
          { key := obj.key, succeeded := true,
            progressEmitted := (s + 1) % 10 == 0 } :: acc.steps }
    else
      let acc := submitLoop send rest s (e + 1)
      { acc with steps :=
          { key := obj.key, succeeded := false,
            progressEmitted := false } :: acc.steps }

/-- What `restoreObjects` returns plus its observable submission
summary: the plan it computed (its actual return value), the per-object
trace, and the success/failure counts it reports at the end. -/
structure SubmissionOutcome where
  operation : RestoreOperation
  steps : List SubmitStep
  successCount : Nat
  errorCount : Nat
deriving DecidableEq

/-- `restoreObjects`: compute the plan via `dryRunRestore`; in dry-run
mode or on an empty plan, return it untouched with no submissions;
otherwise run the submission loop over the plan's objects and return
the same plan together with the accumulated counts. -/
def restoreObjects (bucketName : String)
    (responses : List (Except String ListPage))
    (send : String → Bool) (dryRun : Bool) : Except String SubmissionOutcome :=
  match getBucketObjects bucketName responses with
  | .error e => .error e
  | .ok allObjects =>
    let operation := buildRestoreOperation allObjects
    if dryRun || operation.objects.isEmpty then
      .ok { operation := operation, steps := [], successCount := 0, errorCount := 0 }
    else
      let acc := submitLoop send operation.objects 0 0
      .ok { operation := operation, steps := acc.steps,
            successCount := acc.successCount, errorCount := acc.errorCount }

/-! ## Status aggregator (`getObjectRestoreStatus`, `checkRestoreStatus`) -/

/-- The three values of the `restoreStatus` field. -/
inductive RestoreStatusKind
  | inProgress
  | completed
  | notRequested
deriving DecidableEq

/-- Interface `RestoreStatus` in the source. -/
structure RestoreStatus where
  key : String
  storageClass : String
  restoreStatus : RestoreStatusKind
  restoreExpiryDate : Option String
  size : Nat
deriving DecidableEq

/-- Interface `StatusSummary` in the source. -/
structure StatusSummary where
  bucketName : String
  glacierObjects : List S3Object
  inProgress : List RestoreStatus
  completed : List RestoreStatus
  notRequested : List RestoreStatus
  totalSizeInProgress : Nat
  totalSizeCompleted : Nat
deriving DecidableEq

/-- The fields of a `HeadObjectCommand` response the aggregator reads. -/
structure HeadResponse where
  restore : Option String
  storageClass : Option String
  contentLength : Option Nat
deriving DecidableEq

/-- `restoreInfo.includes(pattern)`: substring occurrence test on the
character lists of the two strings. -/
def charsInclude (pattern : List Char) : List Char → Bool
  | [] => pattern.isEmpty
  | c :: rest => pattern.isPrefixOf (c :: rest) || charsInclude pattern rest

/-- JS `String.prototype.includes`. -/
def strIncludes (s pattern : String) : Bool :=
  charsInclude pattern.data s.data

/-- Try the regex `expiry-date="([^"]+)"` at the head of `l`: the
literal prefix, then a longest nonempty run of non-quote characters,
then a closing quote. -/
def matchExpiryAt (l : List Char) : Option (List Char) :=
  if ("expiry-date=\"".data).isPrefixOf l then
    let after := l.drop ("expiry-date=\"".data).length
    let captured := after.takeWhile (fun c => c != '"')
    if captured.isEmpty then none
    else if captured.length < after.length then some captured
    else none
  else none

/-- `restoreInfo.match(/expiry-date="([^"]+)"/)`: the capture of the
leftmost position where the whole pattern matches, if any. -/
def extractExpiry : List Char → Option (List Char)
  | [] => none
  | c :: rest =>
    match matchExpiryAt (c :: rest) with
    | some captured => some captured
    | none => extractExpiry rest

/-- Derivation of `restoreStatus` and `restoreExpiryDate` from the raw
`Restore` header in `getObjectRestoreStatus`: default `not-requested`;
an `ongoing-request="true"` marker → `in-progress`; otherwise an
`ongoing-request="false"` marker → `completed`, with the expiry
captured by the regex if it matches (an unparsable expiry simply
leaves the date unset). -/
def deriveRestoreState (restore : Option String) :
    RestoreStatusKind × Option String :=
  match restore with
  | none => (.notRequested, none)
  | some restoreInfo =>
    if strIncludes restoreInfo "ongoing-request=\"true\"" then
      (.inProgress, none)
    else if strIncludes restoreInfo "ongoing-request=\"false\"" then
      (.completed, (extractExpiry restoreInfo.data).map (fun cs => String.mk cs))
    else
      (.notRequested, none)

/-- `getObjectRestoreStatus`: head the object and derive its restore
state; if the head call fails (`head = none`), degrade the object to
`{storageClass: UNKNOWN, restoreStatus: not-requested, size: 0}`
instead of propagating the failure. -/
def getObjectRestoreStatus (objectKey : String) (head : Option HeadResponse) :
    RestoreStatus :=
  match head with
  | none =>
    { key := objectKey, storageClass := "UNKNOWN",
      restoreStatus := .notRequested, restoreExpiryDate := none, size := 0 }
  | some response =>
    let st := deriveRestoreState response.restore
    { key := objectKey,
      storageClass :=
        match response.storageClass with
        | none => "STANDARD"
        | some s => if s = "" then "STANDARD" else s,
      restoreStatus := st.1,
      restoreExpiryDate := st.2,
      size := response.contentLength.getD 0 }

/-- The `statusResults` accumulated by the per-object loop of
`checkRestoreStatus`: one derived status per archival object, in
order.  `head` is the per-key `HeadObjectCommand` oracle (`none`
models a failed call). -/
def statusResultsOf (head : String → Option HeadResponse)
    (allObjects : List S3Object) : List RestoreStatus :=
  (filterGlacierObjects allObjects).map
    (fun obj => getObjectRestoreStatus obj.key (head obj.key))

/-- `checkRestoreStatus`: early return on no archival objects;
otherwise derive each archival object's status, partition the results
into the three buckets by `restoreStatus`, and total the sizes of the
in-progress and completed buckets. -/
def checkRestoreStatus (bucketName : String)
    (head : String → Option HeadResponse)
    (allObjects : List S3Object) : StatusSummary :=
  let glacierObjects := filterGlacierObjects allObjects
  if glacierObjects.isEmpty then
    { bucketName := bucketName, glacierObjects := [],
      inProgress := [], completed := [], notRequested := [],
      totalSizeInProgress := 0, totalSizeCompleted := 0 }
  else
    let statusResults := statusResultsOf head allObjects
    let inProgress :=
      statusResults.filter (fun s => s.restoreStatus == .inProgress)
    let completed :=
      statusResults.filter (fun s => s.restoreStatus == .completed)
    let notRequested :=
      statusResults.filter (fun s => s.restoreStatus == .notRequested)
    { bucketName := bucketName, glacierObjects := glacierObjects,
      inProgress := inProgress, completed := completed,
      notRequested := notRequested,
      totalSizeInProgress := (inProgress.map RestoreStatus.size).sum,
      totalSizeCompleted := (completed.map RestoreStatus.size).sum }

/-! ## Helper lemmas -/

/-- Stability of the planner's sort: for every size, the objects of that
size appear in the sorted output exactly as they appeared in the input. -/
theorem sortBySizeDesc_filter_size (l : List S3Object) (v : Nat) :
    (sortBySizeDesc l).filter (fun o => o.size == v)
      = l.filter (fun o => o.size == v) := by
  have hmem : ∀ o ∈ l.filter (fun o => o.size == v), o.size = v := by
    intro o ho
    simpa using (List.mem_filter.mp ho).2
  have hr : (l.filter (fun o => o.size == v)).Pairwise sizeDescKeepOrder := by
    refine List.pairwise_of_forall_mem_list ?_
    intro a ha b hb
    unfold sizeDescKeepOrder
    rw [hmem a ha, hmem b hb]
  have hsub : List.Sublist (l.filter (fun o => o.size == v)) (sortBySizeDesc l) :=
    List.sublist_insertionSort hr (List.filter_sublist l)
  have hsub2 : List.Sublist (l.filter (fun o => o.size == v))
      ((sortBySizeDesc l).filter (fun o => o.size == v)) := by
    have := hsub.filter (fun o => o.size == v)
    rw [List.filter_filter] at this
    simpa only [Bool.and_self] using this
  have hlen : ((sortBySizeDesc l).filter (fun o => o.size == v)).length
      = (l.filter (fun o => o.size == v)).length :=
    ((List.perm_insertionSort sizeDescKeepOrder l).filter _).length_eq
  exact (hsub2.eq_of_length hlen.symm).symm

/-! ## Claim theorems -/

/-- C6: the tier classifier is a total, deterministic function on
provider tier strings: `isArchival` holds exactly on the three
archival storage classes GLACIER, DEEP_ARCHIVE and GLACIER_IR, is
false on the empty string, and `filterGlacierObjects` keeps exactly
the objects it accepts. -/
theorem isArchival_exactly_three_classes :
    (∀ s : String, isArchival s = true ↔
      (s = "GLACIER" ∨ s = "DEEP_ARCHIVE" ∨ s = "GLACIER_IR")) ∧
    isArchival "" = false ∧
    (∀ objects : List S3Object,
      filterGlacierObjects objects
        = objects.filter (fun obj => isArchival obj.storageClass)) := by
  refine ⟨fun s => ?_, by decide, fun _ => rfl⟩
  simp [isArchival, glacierStorageClasses]

/-- Archival object with key "b" enumerated before an equal-sized one
with key "a": exhibits the planner's tie behavior. -/
def tieObjB : S3Object :=
  { key := "b", size := 100, storageClass := "GLACIER", lastModified := "" }

/-- Equal-sized archival object with key "a", enumerated second. -/
def tieObjA : S3Object :=
  { key := "a", size := 100, storageClass := "GLACIER", lastModified := "" }

/-- Smaller archival object with key "c". -/
def tieObjC : S3Object :=
  { key := "c", size := 50, storageClass := "GLACIER", lastModified := "" }

/-- C4 counterexample: on the snapshot enumerated as [b:100, a:100, c:50]
(all archival) the plan keeps the enumeration order [b, a, c] on the
size tie; it is not the key-ascending order [a, b, c] the claim
predicts for every enumerated object set. -/
theorem plan_order_not_key_tiebreak :
    (buildRestoreOperation [tieObjB, tieObjA, tieObjC]).objects
      = [tieObjB, tieObjA, tieObjC] ∧
    (buildRestoreOperation [tieObjB, tieObjA, tieObjC]).objects
      ≠ [tieObjA, tieObjB, tieObjC] := by
  constructor
  · rfl
  · decide

/-- C4 amended: the plan's object sequence is the archival subset
stably sorted descending by size — it is sorted descending by
`sizeBytes`, it is a permutation of the archival subset, and within
every size class the enumeration order is preserved (so ties follow
enumeration order, which is ascending by key only when the provider
enumerates in ascending key order). -/
theorem plan_sorted_desc_stable (allObjects : List S3Object) :
    ((buildRestoreOperation allObjects).objects).Pairwise sizeDescKeepOrder ∧
    List.Perm ((buildRestoreOperation allObjects).objects)
      (filterGlacierObjects allObjects) ∧
    (∀ v : Nat,
      ((buildRestoreOperation allObjects).objects).filter (fun o => o.size == v)
        = (filterGlacierObjects allObjects).filter (fun o => o.size == v)) := by
  unfold buildRestoreOperation
  by_cases h : allObjects.isEmpty
  · have : allObjects = [] := List.isEmpty_iff.mp h
    subst this
    simp [filterGlacierObjects]
  · simp only [h, if_false]
    refine ⟨List.sorted_insertionSort sizeDescKeepOrder _,
      List.perm_insertionSort sizeDescKeepOrder _,
      fun v => sortBySizeDesc_filter_size _ v⟩

/-- C7: if a page fetch fails at any point of the pagination (after any
run of successful pages that kept returning continuation tokens), the
whole enumeration returns the `Failed to list objects` error naming the
bucket and the underlying cause — no partial object list survives. -/
theorem enumeration_aborts_on_page_failure
    (bucketName cause : String)
    (okPages : List (Except String ListPage))
    (rest : List (Except String ListPage))
    (h : ∀ r ∈ okPages, ∃ page : ListPage,
      r = .ok page ∧ page.nextContinuationToken.isSome = true) :
    getBucketObjects bucketName (okPages ++ .error cause :: rest)
      = .error (listingFailedMessage bucketName cause) := by
  induction okPages with
  | nil => rfl
  | cons r rs ih =>
    obtain ⟨page, hr, htok⟩ := h r (List.mem_cons_self r rs)
    subst hr
    obtain ⟨t, ht⟩ := Option.isSome_iff_exists.mp htok
    have ihr := ih (fun q hq => h q (List.mem_cons_of_mem _ hq))
    simp [getBucketObjects, ht, ihr]

/-- A successful first page carrying a continuation token, used to
instantiate `enumeration_aborts_on_page_failure`. -/
def witnessPage : ListPage :=
  { contents := [{ rawKey := some "x", rawSize := some 3,
                   rawStorageClass := some "GLACIER", rawLastModified := none }],
    nextContinuationToken := some "token1" }

/-- Witness for C7: one good page followed by a failed fetch makes the
whole enumeration fail with the listing error. -/
theorem enumeration_aborts_witness :
    getBucketObjects "my-bucket" [.ok witnessPage, .error "boom"]
      = .error (listingFailedMessage "my-bucket" "boom") :=
  enumeration_aborts_on_page_failure "my-bucket" "boom" [.ok witnessPage] []
    (by
      intro r hr
      simp only [List.mem_singleton] at hr
      exact ⟨witnessPage, hr, rfl⟩)

/-- C8: the plan `restoreObjects` returns (in every mode: dry-run,
empty plan, or actual submission, and also when enumeration fails) is
exactly the plan `dryRunRestore` computes over the same enumerated
snapshot. -/
theorem restore_returns_dryRun_plan
    (bucketName : String) (responses : List (Except String ListPage))
    (send : String → Bool) (dryRun : Bool) :
    (restoreObjects bucketName responses send dryRun).map
        SubmissionOutcome.operation
      = dryRunRestore bucketName responses := by
  unfold restoreObjects dryRunRestore
  cases getBucketObjects bucketName responses with
  | error e => rfl
  | ok allObjects =>
    by_cases h : (dryRun || (buildRestoreOperation allObjects).objects.isEmpty) = true
    · simp [h, Except.map]
    · simp only [Bool.not_eq_true] at h
      simp [h, Except.map]

/-- C1: the submission loop processes every object of the plan in plan
order — the per-object outcome trace lists exactly the plan's keys in
order, so a failure never aborts the processing of subsequent objects —
and on a plan of one failing and one succeeding object the reported
counts are `successCount = 1` and `errorCount = 1`, with both objects
present in the per-object outcome list. -/
theorem submit_isolates_per_object_failures :
    (∀ (send : String → Bool) (objs : List S3Object) (s e : Nat),
      ((submitLoop send objs s e).steps).map SubmitStep.key
        = objs.map S3Object.key) ∧
    (∀ (send : String → Bool) (o1 o2 : S3Object),
      send o1.key = false → send o2.key = true →
      (submitLoop send [o1, o2] 0 0).successCount = 1 ∧
      (submitLoop send [o1, o2] 0 0).errorCount = 1 ∧
      ((submitLoop send [o1, o2] 0 0).steps).map SubmitStep.key
        = [o1.key, o2.key]) := by
  constructor
  · intro send objs
    induction objs with
    | nil => intro s e; rfl
    | cons obj rest ih =>
      intro s e
      by_cases hs : send obj.key <;> simp [submitLoop, hs, ih]
  · intro send o1 o2 h1 h2
    refine ⟨?_, ?_, ?_⟩ <;> simp [submitLoop, h1, h2]

/-- The object whose restore submission fails in the C1 witness. -/
def failObj : S3Object :=
  { key := "big/failing.bin", size := 100, storageClass := "GLACIER",
    lastModified := "" }

/-- The object whose restore submission succeeds in the C1 witness. -/
def okObj : S3Object :=
  { key := "small/ok.bin", size := 50, storageClass := "DEEP_ARCHIVE",
    lastModified := "" }

/-- Submission oracle that fails exactly on `failObj`'s key. -/
def send1 : String → Bool := fun k => k != "big/failing.bin"

/-- Witness for C1: on the concrete two-object plan where the first
submission fails and the second succeeds, the counts are 1 and 1 and
both keys are in the outcome trace. -/
theorem submit_isolates_witness :
    send1 failObj.key = false ∧
    send1 okObj.key = true ∧
    ((submitLoop send1 [failObj, okObj] 0 0).successCount = 1 ∧
     (submitLoop send1 [failObj, okObj] 0 0).errorCount = 1 ∧
     ((submitLoop send1 [failObj, okObj] 0 0).steps).map SubmitStep.key
       = [failObj.key, okObj.key]) :=
  ⟨by decide, by decide,
    submit_isolates_per_object_failures.2 send1 failObj okObj
      (by decide) (by decide)⟩

/-- A plan of ten archival objects keyed k0..k9. -/
def tenObjects : List S3Object :=
  (List.range 10).map (fun i =>
    { key := "k" ++ toString i, size := 1, storageClass := "GLACIER",
      lastModified := "" })

/-- Submission oracle that fails exactly on key k0. -/
def sendFailK0 : String → Bool := fun k => k != "k0"

/-- C9 counterexample: on a plan of 10 objects where the first
submission fails and the other nine succeed, no progress line is
printed at all — in particular none after the 10th processed object —
whereas progress after every 10 *processed* objects would require one
exactly there. -/
theorem progress_not_every_ten_processed :
    ((submitLoop sendFailK0 tenObjects 0 0).steps).map SubmitStep.progressEmitted
      ≠ (List.range tenObjects.length).map (fun i => (i + 1) % 10 == 0) := by
  decide

/-- C9 amended: during submission a progress line is printed exactly
after each *successful* submission that brings the cumulative success
count to a multiple of 10; failed submissions do not advance the
progress counter.  Stated for every step index `i` of the trace and
every starting counter pair. -/
theorem progress_every_ten_successes
    (send : String → Bool) (objs : List S3Object) :
    ∀ (s e i : Nat),
      ((submitLoop send objs s e).steps[i]?).map SubmitStep.progressEmitted
        = ((submitLoop send objs s e).steps[i]?).map
            (fun st => st.succeeded
              && ((s + ((submitLoop send objs s e).steps.take (i + 1)).countP
                    (fun st2 => st2.succeeded)) % 10 == 0)) := by
  induction objs with
  | nil => intro s e i; rfl
  | cons obj rest ih =>
    intro s e i
    by_cases hs : send obj.key
    · cases i with
      | zero => simp [submitLoop, hs, List.countP_cons]
      | succ n =>
        have hrec := ih (s + 1) e n
        simp only [submitLoop, hs, if_pos, List.getElem?_cons_succ,
          List.take_succ_cons, List.countP_cons]
        have harith : s + (List.countP (fun st2 => st2.succeeded)
              (List.take (n + 1) (submitLoop send rest (s + 1) e).steps) + 1)
            = s + 1 + List.countP (fun st2 => st2.succeeded)
              (List.take (n + 1) (submitLoop send rest (s + 1) e).steps) := by
          omega
        rw [harith]
        exact hrec
    · cases i with
      | zero => simp [submitLoop, hs]
      | succ n =>
        have hrec := ih s (e + 1) n
        simp only [submitLoop, hs, Bool.false_eq_true, if_false,
          List.getElem?_cons_succ, List.take_succ_cons, List.countP_cons]
        simpa using hrec

/-- The three status filters of `checkRestoreStatus` jointly recover
the status-result list: their concatenation is a permutation of it. -/
theorem statusKind_filters_perm (l : List RestoreStatus) :
    List.Perm
      (l.filter (fun s => s.restoreStatus == RestoreStatusKind.inProgress)
        ++ l.filter (fun s => s.restoreStatus == RestoreStatusKind.completed)
        ++ l.filter (fun s => s.restoreStatus == RestoreStatusKind.notRequested))
      l := by
  induction l with
  | nil => simp
  | cons x t ih =>
    cases hx : x.restoreStatus with
    | inProgress =>
      simp only [List.filter_cons, hx]
      simpa using ih.cons x
    | completed =>
      simp only [List.filter_cons, hx]
      simp only [show (RestoreStatusKind.completed == RestoreStatusKind.inProgress)
          = false from rfl,
        show (RestoreStatusKind.completed == RestoreStatusKind.completed)
          = true from rfl,
        show (RestoreStatusKind.completed == RestoreStatusKind.notRequested)
          = false from rfl,
        Bool.false_eq_true, if_false, if_true, cond_false, cond_true]
      refine List.Perm.trans ?_ (ih.cons x)
      have hassoc :
          (l₁ l₂ l₃ : List RestoreStatus) → l₁ ++ (x :: l₂) ++ l₃
            = l₁ ++ x :: (l₂ ++ l₃) := by
        intro l₁ l₂ l₃
        simp
      rw [hassoc]
      refine List.Perm.trans List.perm_middle ?_
      simp [List.append_assoc]
    | notRequested =>
      simp only [List.filter_cons, hx]
      simp only [show (RestoreStatusKind.notRequested == RestoreStatusKind.inProgress)
          = false from rfl,
        show (RestoreStatusKind.notRequested == RestoreStatusKind.completed)
          = false from rfl,
        show (RestoreStatusKind.notRequested == RestoreStatusKind.notRequested)
          = true from rfl,
        Bool.false_eq_true, if_false, if_true, cond_false, cond_true]
      refine List.Perm.trans ?_ (ih.cons x)
      refine List.Perm.trans List.perm_middle ?_
      simp [List.append_assoc]

/-- The `inProgress` bucket is the in-progress filter of the derived
status results, in both branches of `checkRestoreStatus`. -/
theorem checkRestoreStatus_inProgress_eq (bucketName : String)
    (head : String → Option HeadResponse) (allObjects : List S3Object) :
    (checkRestoreStatus bucketName head allObjects).inProgress
      = (statusResultsOf head allObjects).filter
          (fun s => s.restoreStatus == RestoreStatusKind.inProgress) := by
  unfold checkRestoreStatus
  by_cases h : (filterGlacierObjects allObjects).isEmpty
  · have : filterGlacierObjects allObjects = [] := List.isEmpty_iff.mp h
    simp [h, statusResultsOf, this]
  · simp [h]

/-- The `completed` bucket is the completed filter of the derived
status results. -/
theorem checkRestoreStatus_completed_eq (bucketName : String)
    (head : String → Option HeadResponse) (allObjects : List S3Object) :
    (checkRestoreStatus bucketName head allObjects).completed
      = (statusResultsOf head allObjects).filter
          (fun s => s.restoreStatus == RestoreStatusKind.completed) := by
  unfold checkRestoreStatus
  by_cases h : (filterGlacierObjects allObjects).isEmpty
  · have : filterGlacierObjects allObjects = [] := List.isEmpty_iff.mp h
    simp [h, statusResultsOf, this]
  · simp [h]

/-- The `notRequested` bucket is the not-requested filter of the
derived status results. -/
theorem checkRestoreStatus_notRequested_eq (bucketName : String)
    (head : String → Option HeadResponse) (allObjects : List S3Object) :
    (checkRestoreStatus bucketName head allObjects).notRequested
      = (statusResultsOf head allObjects).filter
          (fun s => s.restoreStatus == RestoreStatusKind.notRequested) := by
  unfold checkRestoreStatus
  by_cases h : (filterGlacierObjects allObjects).isEmpty
  · have : filterGlacierObjects allObjects = [] := List.isEmpty_iff.mp h
    simp [h, statusResultsOf, this]
  · simp [h]

/-- Status derivation preserves the object's key. -/
theorem getObjectRestoreStatus_key (objectKey : String)
    (head : Option HeadResponse) :
    (getObjectRestoreStatus objectKey head).key = objectKey := by
  cases head <;> rfl

/-- The derived status results carry exactly the archival keys, in
enumeration order. -/
theorem statusResultsOf_keys (head : String → Option HeadResponse)
    (allObjects : List S3Object) :
    (statusResultsOf head allObjects).map RestoreStatus.key
      = (filterGlacierObjects allObjects).map S3Object.key := by
  unfold statusResultsOf
  rw [List.map_map]
  refine List.map_congr_left ?_
  intro obj _
  exact getObjectRestoreStatus_key obj.key (head obj.key)

/-- C2: the aggregate's output buckets are disjoint and exhaustive over
the archival object set: the three buckets together are a permutation
of the per-object status results (so every archival object's status
record lands in a bucket), no record is in two buckets, and the keys
across the three buckets are a permutation of the archival keys. -/
theorem status_buckets_disjoint_exhaustive (bucketName : String)
    (head : String → Option HeadResponse) (allObjects : List S3Object) :
    List.Perm
      ((checkRestoreStatus bucketName head allObjects).inProgress
        ++ (checkRestoreStatus bucketName head allObjects).completed
        ++ (checkRestoreStatus bucketName head allObjects).notRequested)
      (statusResultsOf head allObjects) ∧
    (∀ r : RestoreStatus,
      (r ∈ (checkRestoreStatus bucketName head allObjects).inProgress →
        r ∉ (checkRestoreStatus bucketName head allObjects).completed ∧
        r ∉ (checkRestoreStatus bucketName head allObjects).notRequested) ∧
      (r ∈ (checkRestoreStatus bucketName head allObjects).completed →
        r ∉ (checkRestoreStatus bucketName head allObjects).notRequested)) ∧
    List.Perm
      (((checkRestoreStatus bucketName head allObjects).inProgress
        ++ (checkRestoreStatus bucketName head allObjects).completed
        ++ (checkRestoreStatus bucketName head allObjects).notRequested).map
          RestoreStatus.key)
      ((filterGlacierObjects allObjects).map S3Object.key) := by
  rw [checkRestoreStatus_inProgress_eq, checkRestoreStatus_completed_eq,
    checkRestoreStatus_notRequested_eq]
  refine ⟨statusKind_filters_perm _, fun r => ⟨?_, ?_⟩, ?_⟩
  · intro hin
    have h1 : r.restoreStatus = RestoreStatusKind.inProgress := by
      simpa using (List.mem_filter.mp hin).2
    constructor
    · intro hc
      have h2 : r.restoreStatus = RestoreStatusKind.completed := by
        simpa using (List.mem_filter.mp hc).2
      rw [h1] at h2
      cases h2
    · intro hn
      have h2 : r.restoreStatus = RestoreStatusKind.notRequested := by
        simpa using (List.mem_filter.mp hn).2
      rw [h1] at h2
      cases h2
  · intro hc hn
    have h1 : r.restoreStatus = RestoreStatusKind.completed := by
      simpa using (List.mem_filter.mp hc).2
    have h2 : r.restoreStatus = RestoreStatusKind.notRequested := by
      simpa using (List.mem_filter.mp hn).2
    rw [h1] at h2
    cases h2
  · rw [← statusResultsOf_keys head allObjects]
    exact (statusKind_filters_perm _).map RestoreStatus.key

/-- C5: a failed per-object metadata fetch degrades that object to the
UNKNOWN/not-requested/size-0 placeholder instead of propagating, and
aggregation still yields exactly one status record per archival object
(the three bucket sizes always total the archival object count). -/
theorem metadata_failure_degrades_object :
    (∀ objectKey : String,
      getObjectRestoreStatus objectKey none
        = { key := objectKey, storageClass := "UNKNOWN",
            restoreStatus := RestoreStatusKind.notRequested,
            restoreExpiryDate := none, size := 0 }) ∧
    (∀ (bucketName : String) (head : String → Option HeadResponse)
        (allObjects : List S3Object),
      (checkRestoreStatus bucketName head allObjects).inProgress.length
        + (checkRestoreStatus bucketName head allObjects).completed.length
        + (checkRestoreStatus bucketName head allObjects).notRequested.length
        = (filterGlacierObjects allObjects).length) := by
  refine ⟨fun _ => rfl, fun bucketName head allObjects => ?_⟩
  have hperm :=
    (status_buckets_disjoint_exhaustive bucketName head allObjects).1
  have hlen := hperm.length_eq
  simp only [List.length_append] at hlen
  rw [hlen]
  unfold statusResultsOf
  exact List.length_map _ _

/-- C10: the summary's byte totals are exactly the sums of the sizes in
the in-progress and completed buckets (equivalently, of the in-progress
and completed filters of the status results); the not-requested bucket
contributes to no size total. -/
theorem status_totals_track_two_buckets (bucketName : String)
    (head : String → Option HeadResponse) (allObjects : List S3Object) :
    (checkRestoreStatus bucketName head allObjects).totalSizeInProgress
      = (((checkRestoreStatus bucketName head allObjects).inProgress).map
          RestoreStatus.size).sum ∧
    (checkRestoreStatus bucketName head allObjects).totalSizeCompleted
      = (((checkRestoreStatus bucketName head allObjects).completed).map
          RestoreStatus.size).sum ∧
    (checkRestoreStatus bucketName head allObjects).totalSizeInProgress
      = (((statusResultsOf head allObjects).filter
          (fun s => s.restoreStatus == RestoreStatusKind.inProgress)).map
            RestoreStatus.size).sum ∧
    (checkRestoreStatus bucketName head allObjects).totalSizeCompleted
      = (((statusResultsOf head allObjects).filter
          (fun s => s.restoreStatus == RestoreStatusKind.completed)).map
            RestoreStatus.size).sum := by
  have hin := checkRestoreStatus_inProgress_eq bucketName head allObjects
  have hc := checkRestoreStatus_completed_eq bucketName head allObjects
  have h1 : (checkRestoreStatus bucketName head allObjects).totalSizeInProgress
      = (((checkRestoreStatus bucketName head allObjects).inProgress).map
          RestoreStatus.size).sum := by
    unfold checkRestoreStatus
    by_cases h : (filterGlacierObjects allObjects).isEmpty <;> simp [h]
  have h2 : (checkRestoreStatus bucketName head allObjects).totalSizeCompleted
      = (((checkRestoreStatus bucketName head allObjects).completed).map
          RestoreStatus.size).sum := by
    unfold checkRestoreStatus
    by_cases h : (filterGlacierObjects allObjects).isEmpty <;> simp [h]
  exact ⟨h1, h2, by rw [h1, hin], by rw [h2, hc]⟩

/-- C3: restore-state derivation from the per-object restore metadata:
an `ongoing-request="true"` marker yields `in-progress`; otherwise an
`ongoing-request="false"` marker yields `completed` with whatever the
expiry regex extracts (so an expiry parse failure still yields
`completed`, just with no expiry date, never an error — witnessed on
the spec's vectors `ongoing-request="false", expiry-date="2024-01-01"`
and a marker with no parsable expiry); a missing restore marker yields
`not-requested`. -/
theorem restore_state_derivation :
    (∀ (objectKey info : String) (resp : HeadResponse),
      resp.restore = some info →
      strIncludes info "ongoing-request=\"true\"" = true →
      (getObjectRestoreStatus objectKey (some resp)).restoreStatus
        = RestoreStatusKind.inProgress) ∧
    (∀ (objectKey info : String) (resp : HeadResponse),
      resp.restore = some info →
      strIncludes info "ongoing-request=\"true\"" = false →
      strIncludes info "ongoing-request=\"false\"" = true →
      (getObjectRestoreStatus objectKey (some resp)).restoreStatus
        = RestoreStatusKind.completed ∧
      (getObjectRestoreStatus objectKey (some resp)).restoreExpiryDate
        = (extractExpiry info.data).map (fun cs => String.mk cs)) ∧
    (∀ (objectKey : String) (resp : HeadResponse),
      resp.restore = none →
      (getObjectRestoreStatus objectKey (some resp)).restoreStatus
        = RestoreStatusKind.notRequested ∧
      (getObjectRestoreStatus objectKey (some resp)).restoreExpiryDate
        = none) ∧
    deriveRestoreState
        (some "ongoing-request=\"false\", expiry-date=\"2024-01-01\"")
      = (RestoreStatusKind.completed, some "2024-01-01") ∧
    deriveRestoreState (some "ongoing-request=\"false\"")
      = (RestoreStatusKind.completed, none) := by
  refine ⟨?_, ?_, ?_, by decide, by decide⟩
  · intro objectKey info resp hrest htrue
    simp [getObjectRestoreStatus, deriveRestoreState, hrest, htrue]
  · intro objectKey info resp hrest htrue hfalse
    constructor <;>
      simp [getObjectRestoreStatus, deriveRestoreState, hrest, htrue, hfalse]
  · intro objectKey resp hrest
    constructor <;>
      simp [getObjectRestoreStatus, deriveRestoreState, hrest]

/-- A head response whose restore marker reports an ongoing request. -/
def ongoingResp : HeadResponse :=
  { restore := some "ongoing-request=\"true\"", storageClass := some "GLACIER",
    contentLength := some 7 }

/-- Witness for C3: the `ongoing-request="true"` marker concretely
derives the in-progress state. -/
theorem restore_state_derivation_witness :
    ongoingResp.restore = some "ongoing-request=\"true\"" ∧
    strIncludes "ongoing-request=\"true\"" "ongoing-request=\"true\"" = true ∧
    (getObjectRestoreStatus "photos/1.jpg" (some ongoingResp)).restoreStatus
      = RestoreStatusKind.inProgress :=
  ⟨rfl, by decide,
    restore_state_derivation.1 "photos/1.jpg" "ongoing-request=\"true\""
      ongoingResp rfl (by decide)⟩

end GlacierRetrieve
